import Mathlib

/-!
Verification of the notebook execution toolkit (`notebook_toolkit.py` and the
legacy `run_notebook.py`) against its natural-language specification.

The development shallowly embeds the relevant Python functions:
strings stay strings, Python `int(...)` becomes a partial parser returning
`Option Int`, fallible functions return `Except`, and the orchestrator
`run_notebook_realtime_extended` becomes a pure function from an explicit
environment (kernel behaviour per submitted cell, operator answers per
prompt) to a trace of its observable effects.
-/

/-! ## Python string primitives -/

/-- The characters Python's `str.strip()` removes (ASCII whitespace). -/
def isPySpace (c : Char) : Bool :=
  c = ' ' || c = '\t' || c = '\n' || c = '\x0d' || c = '\x0b' || c = '\x0c'

/-- `str.strip()` on a character list. -/
def pyStripList (l : List Char) : List Char :=
  ((l.dropWhile isPySpace).reverse.dropWhile isPySpace).reverse

/-- Python `s.strip()`. -/
def pyStrip (s : String) : String :=
  String.mk (pyStripList s.toList)

/-- Python `s.lower()` (ASCII case folding suffices for the strings involved). -/
def pyLower (s : String) : String :=
  String.mk (s.toList.map Char.toLower)

/-- Does `hay` start with `needle`? -/
def listStartsWith : List Char → List Char → Bool
  | _, [] => true
  | [], _ :: _ => false
  | a :: hay, b :: needle => a = b && listStartsWith hay needle

/-- Does `hay` contain `needle` as a contiguous run? -/
def listHasRun : List Char → List Char → Bool
  | hay, needle =>
    if listStartsWith hay needle then true
    else
      match hay with
      | [] => false
      | _ :: rest => listHasRun rest needle

/-- Python `needle in hay` on strings. -/
def pyContains (hay needle : String) : Bool :=
  listHasRun hay.toList needle.toList

/-- Numeric value of an ASCII digit. -/
def digitVal (c : Char) : Nat := c.toNat - 48

/-- Digits of a Python integer literal after the first digit: `'_'` is allowed
only between digits, exactly as `int(...)` accepts. -/
def pyDigits : Nat → List Char → Option Nat
  | acc, [] => some acc
  | _, ['_'] => none
  | acc, '_' :: c :: cs =>
    if c.isDigit then pyDigits (acc * 10 + digitVal c) cs else none
  | acc, c :: cs =>
    if c.isDigit then pyDigits (acc * 10 + digitVal c) cs else none

/-- A nonempty digit run (the part after the optional sign). -/
def pyDigitsStart : List Char → Option Nat
  | [] => none
  | c :: cs => if c.isDigit then pyDigits (digitVal c) cs else none

/-- Sign and digits of a stripped Python integer literal. -/
def pyIntCore : List Char → Option Int
  | '+' :: rest => (pyDigitsStart rest).map Int.ofNat
  | '-' :: rest => (pyDigitsStart rest).map (fun n => -(Int.ofNat n : Int))
  | l => (pyDigitsStart l).map Int.ofNat

/-- Python `int(s)`: `none` models the `ValueError` it raises on bad input. -/
def pyInt (s : String) : Option Int :=
  pyIntCore (pyStripList s.toList)

/-- Python `s.split(sep)` for a one-character separator: splits on every
occurrence, keeping empty fields (`"-3".split('-') == ['', '3']`). -/
def pySplitChar (sep : Char) : List Char → List (List Char)
  | [] => [[]]
  | c :: rest =>
    let r := pySplitChar sep rest
    if c = sep then [] :: r
    else
      match r with
      | [] => [[c]]
      | h :: t => (c :: h) :: t

/-- Python `s.split('-')` as a list of strings. -/
def pySplitDash (s : String) : List String :=
  (pySplitChar '-' s.toList).map String.mk

/-! ## Range Selector: `parse_cell_range` (notebook_toolkit.py lines 222-239) -/

/-- `parse_cell_range(cell_range_str, total_cells)`.  `Except.error` models a
raised `ValueError`; `Except.ok none` is Python's `return None` for a falsy
spec string; `Except.ok (some (s, e))` is `return (start, end)`.
Mirrors the source: the empty-spec early return, the `'-' in s` test with
`s.split('-')` and `int(parts[0])`, `int(parts[1])` (extra parts are ignored
by the source, which never checks `len(parts)`), the single-number branch
`start = end = int(s)` whose `int` failure propagates uncaught, and the
bounds test `start < 1 or end < start or end > total_cells`. -/
def parse_cell_range (cell_range_str : String) (total_cells : Int) :
    Except String (Option (Int × Int)) :=
  if cell_range_str = "" then Except.ok none
  else
    let parsed : Except String (Int × Int) :=
      if cell_range_str.toList.contains '-' then
        let parts := pySplitDash cell_range_str
        match pyInt (parts.getD 0 ""), pyInt (parts.getD 1 "") with
        | some s, some e => Except.ok (s, e)
        | _, _ => Except.error "Invalid cell range format. Use N or N-M (e.g. 2-5)"
      else
        match pyInt cell_range_str with
        | some n => Except.ok (n, n)
        | none => Except.error "invalid literal for int() with base 10"
    match parsed with
    | Except.error msg => Except.error msg
    | Except.ok (s, e) =>
      if s < 1 || e < s || e > total_cells then
        Except.error "Cell range out of bounds"
      else Except.ok (some (s, e))

/-! ## Message Router: the `error` branch of `output_hook` (lines 177-187) -/

/-- The per-traceback-entry filter of `output_hook`'s `error` branch:
`''.join(char for char in line if ord(char) < 127)`. -/
def clean_line (line : String) : String :=
  String.mk (line.toList.filter (fun char => char.toNat < 127))

/-- The lines the `error` branch of `output_hook` writes: a header with the
failure kind and message, then `clean_line` of each traceback entry. -/
def render_error_lines (ename evalue : String) (traceback : List String) :
    List String :=
  ("\n❌ " ++ ename ++ ": " ++ evalue) :: traceback.map clean_line

/-! ## The Execution Session collaborator and `execute_cell_simple`
(notebook_toolkit.py lines 105-149, identical in run_notebook.py lines 106-150) -/

/-- The Python exceptions relevant to `execute_cell_simple`'s `try` block.
`keyboardInterrupt` models Python's `KeyboardInterrupt`, which derives from
`BaseException` and therefore is NOT caught by `except Exception`; the other
two derive from `Exception` and are caught. -/
inductive PyExc where
  | timeoutError (msg : String)
  | transportError (msg : String)
  | keyboardInterrupt
deriving DecidableEq

/-- Python `str(e)` for the modelled exceptions. -/
def excStr : PyExc → String
  | PyExc.timeoutError msg => msg
  | PyExc.transportError msg => msg
  | PyExc.keyboardInterrupt => ""

/-- Modelled from the spec: the behaviour of the external Execution Session
collaborator (`jupyter_client`, not part of this repository) for one
submitted unit.  `submit(source, timeout, onMessage)` returns a
`TerminalReply{status: ok|error}` and fails with `TimeoutError` or
`TransportError`; a cancellation signal arriving during the blocking call
surfaces as `KeyboardInterrupt`. -/
structure SessionModel where
  interrupted : Bool
  duration : Nat
  transportFault : Option String
  replyStatus : String

/-- Modelled from the spec: `kc.execute_interactive(code, timeout=...)`.
With `timeout=None` no deadline is ever applied — the call blocks however
long `duration` is; with `timeout=t` it raises `TimeoutError` when the unit
runs past the deadline.  The returned string is the terminal reply's
`content.status`. -/
def execute_interactive (sess : SessionModel) (timeout : Option Int) :
    Except PyExc String :=
  if sess.interrupted then Except.error PyExc.keyboardInterrupt
  else
    match timeout with
    | some t =>
      if (sess.duration : Int) > t then
        Except.error (PyExc.timeoutError "Timeout waiting for output reply")
      else
        match sess.transportFault with
        | some msg => Except.error (PyExc.transportError msg)
        | none => Except.ok sess.replyStatus
    | none =>
      match sess.transportFault with
      | some msg => Except.error (PyExc.transportError msg)
      | none => Except.ok sess.replyStatus

/-- Which failure log `execute_cell_simple`'s `except` branch writes:
`⏰ TIMEOUT` or `❌ Execution error`. -/
inductive FailKind where
  | timedOut
  | execError
deriving DecidableEq

/-- What one call to `execute_cell_simple` observably produces: the boolean
the function returns and which `except`-branch report it logged (if any). -/
structure CellResult where
  success : Bool
  report : Option FailKind
deriving DecidableEq

/-- The deadline `execute_cell_simple` passes to `execute_interactive`:
`if timeout == 0 or timeout is None:` it passes `timeout=None`, otherwise the
given value (source lines 117-131). -/
def effective_timeout (timeout : Option Int) : Option Int :=
  if timeout = some 0 || timeout = none then none else timeout

/-- `execute_cell_simple(kc, code, cell_num, timeout, output_stream)`.
`Except.error` models an uncaught exception escaping the function: the
`except Exception` clause catches `TimeoutError`/`TransportError` — logging
`⏰ TIMEOUT` when `"timeout" in str(e).lower()` and `❌ Execution error`
otherwise, and returning `False` — but not `KeyboardInterrupt`, which
propagates.  On a normal reply the function returns
`reply['content']['status'] != 'error'`. -/
def execute_cell_simple (sess : SessionModel) (timeout : Option Int) :
    Except PyExc CellResult :=
  match execute_interactive sess (effective_timeout timeout) with
  | Except.ok status =>
    if status = "error" then Except.ok ⟨false, none⟩
    else Except.ok ⟨true, none⟩
  | Except.error PyExc.keyboardInterrupt => Except.error PyExc.keyboardInterrupt
  | Except.error e =>
    if pyContains (pyLower (excStr e)) "timeout" then
      Except.ok ⟨false, some FailKind.timedOut⟩
    else
      Except.ok ⟨false, some FailKind.execError⟩

/-- The boolean `execute_cell_simple` hands back to the orchestrator loop
(`false` also for the impossible uncaught case, which the loop never sees). -/
def cellSucceeds (sess : SessionModel) (timeout : Option Int) : Bool :=
  match execute_cell_simple sess timeout with
  | Except.ok r => r.success
  | Except.error _ => false

/-! ## The Execution Orchestrator: `run_notebook_realtime_extended`
(notebook_toolkit.py lines 13-103; legacy variant run_notebook.py lines 10-104) -/

/-- A notebook cell as the orchestrator reads it: its type tag and source. -/
structure Cell where
  cell_type : String
  source : String
deriving DecidableEq

/-- The filter of source line 42 (toolkit) and line 52 (legacy):
`cell.cell_type == 'code' and cell.source.strip()` — Python truthiness of the
stripped source is its non-emptiness. -/
def isExecutableCell (cell : Cell) : Bool :=
  cell.cell_type == "code" && !(pyStrip cell.source == "")

/-- The cells the toolkit run actually iterates over: the executable filter,
then the Python slice `code_cells[start-1:end]` when a range was given
(source lines 42-45). -/
def selectedCells (cells : List Cell) (cell_range : Option (Nat × Nat)) :
    List Cell :=
  let code_cells := cells.filter isExecutableCell
  match cell_range with
  | none => code_cells
  | some r => (code_cells.drop (r.1 - 1)).take (r.2 + 1 - r.1)

/-- The environment one run interacts with: whether `kc.wait_for_ready`
succeeds within its 60 s deadline, the kernel's behaviour for the k-th
submitted cell, and the k-th line `input()` reads at a continue/stop/quit
prompt. -/
structure RunEnv where
  waitReadyOk : Bool
  session : Nat → SessionModel
  answer : Nat → String

/-- How the main loop ended. -/
inductive StopReason where
  | completed
  | userStop
  | interrupted
  | faulted
deriving DecidableEq

/-- The observable trace of the main loop: the `📋 Executing cell num/total`
progress events in order, the `(stripped source, cell_num)` of each cell whose
execution ran to an outcome, the `(submission ordinal, raw input line)` of
each continue/stop/quit prompt, and how the loop ended. -/
structure LoopResult where
  events : List (Nat × Nat)
  executed : List (String × Nat)
  promptLog : List (Nat × String)
  reason : StopReason
deriving DecidableEq

/-- The `cell_num` of source line 61:
`i + 1 if not cell_range else cell_range[0] + i`. -/
def cellNum (cell_range : Option (Nat × Nat)) (i : Nat) : Nat :=
  match cell_range with
  | none => i + 1
  | some r => r.1 + i

/-- The toolkit main loop (source lines 59-82) over the selected cells,
starting at loop index `i` with `p` prompt answers already consumed.
Each iteration logs the progress event, runs `execute_cell_simple`, and on a
`False` result reads `input().strip().lower()`: `'q'` breaks, anything other
than `'y'` breaks, `'y'` continues.  A `KeyboardInterrupt` escaping the
execution is caught by the orchestrator's `except KeyboardInterrupt`; any
other escaping exception would fall through to `finally` and re-raise. -/
def runCells (env : RunEnv) (cell_timeout : Option Int)
    (cell_range : Option (Nat × Nat)) (total : Nat) :
    List Cell → Nat → Nat → LoopResult
  | [], _, _ => ⟨[], [], [], StopReason.completed⟩
  | cell :: rest, i, p =>
    let num := cellNum cell_range i
    let code := pyStrip cell.source
    match execute_cell_simple (env.session i) cell_timeout with
    | Except.error PyExc.keyboardInterrupt =>
      ⟨[(num, total)], [], [], StopReason.interrupted⟩
    | Except.error _ =>
      ⟨[(num, total)], [], [], StopReason.faulted⟩
    | Except.ok res =>
      if res.success then
        let r := runCells env cell_timeout cell_range total rest (i + 1) p
        ⟨(num, total) :: r.events, (code, num) :: r.executed, r.promptLog, r.reason⟩
      else
        let ans := pyLower (pyStrip (env.answer p))
        if ans = "q" then
          ⟨[(num, total)], [(code, num)], [(i, env.answer p)], StopReason.userStop⟩
        else if ans ≠ "y" then
          ⟨[(num, total)], [(code, num)], [(i, env.answer p)], StopReason.userStop⟩
        else
          let r := runCells env cell_timeout cell_range total rest (i + 1) (p + 1)
          ⟨(num, total) :: r.events, (code, num) :: r.executed,
            (i, env.answer p) :: r.promptLog, r.reason⟩

/-- Where the process's ambient `sys.stdout`/`sys.stderr` point. -/
inductive StdTarget where
  | console
  | devnull
deriving DecidableEq

/-- The observable outcome of one whole run: the loop trace, how many times
the `finally` cleanup block (`kc.stop_channels(); km.shutdown_kernel(); ...`)
ran, whether the call raised to its caller, and where `sys.stdout` and
`sys.stderr` point when the call returns or raises. -/
structure RunResult where
  loop : LoopResult
  cleanupRuns : Nat
  raised : Bool
  finalStdout : StdTarget
  finalStderr : StdTarget
deriving DecidableEq

/-- `run_notebook_realtime_extended(notebook_path, cell_timeout, output_file,
cell_range)` (toolkit, lines 13-103).  `file_output` is whether `output_file`
was given.  In file mode the function sets `sys.stdout = sys.stderr = devnull`
up front and `atexit.register`s a hook that only closes the two files — no
code path assigns the originals back, so both remain `devnull` on return.
`km.start_kernel()`, `kc.start_channels()` and `kc.wait_for_ready(timeout=60)`
(lines 48-56) run BEFORE the `try` of line 58, so when `wait_for_ready`
raises, the `finally` block of lines 92-103 is never entered: the run raises
with zero cleanup executions.  Otherwise the loop runs inside `try`, the
`except KeyboardInterrupt` absorbs a cancellation, and `finally` runs its
cleanup exactly once; an unexpected fault re-raises after `finally`. -/
def run_notebook_realtime_extended (cells : List Cell) (cell_timeout : Option Int)
    (file_output : Bool) (cell_range : Option (Nat × Nat)) (env : RunEnv) :
    RunResult :=
  let redirected := if file_output then StdTarget.devnull else StdTarget.console
  let selected := selectedCells cells cell_range
  if env.waitReadyOk then
    let r := runCells env cell_timeout cell_range selected.length selected 0 0
    ⟨r, 1, decide (r.reason = StopReason.faulted), redirected, redirected⟩
  else
    ⟨⟨[], [], [], StopReason.completed⟩, 0, true, redirected, redirected⟩

/-- The legacy main loop (run_notebook.py lines 54-83): iterates ALL notebook
cells, `continue`s past non-code cells and cells whose stripped source is
empty, and computes `cell_num` as
`len([c for c in nb.cells[:i+1] if c.cell_type == 'code' and c.source.strip()])`
(line 62).  `done` is the prefix of cells already iterated (Python's
`nb.cells[:i]`); the submission ordinal for the environment is the number of
executable cells already executed, i.e. `cell_num - 1`. -/
def runCellsLegacy (env : RunEnv) (cell_timeout : Option Int) (total : Nat) :
    List Cell → List Cell → Nat → LoopResult
  | _, [], _ => ⟨[], [], [], StopReason.completed⟩
  | done, cell :: rest, p =>
    if cell.cell_type ≠ "code" then
      runCellsLegacy env cell_timeout total (done ++ [cell]) rest p
    else if pyStrip cell.source = "" then
      runCellsLegacy env cell_timeout total (done ++ [cell]) rest p
    else
      let num := ((done ++ [cell]).filter isExecutableCell).length
      let k := (done.filter isExecutableCell).length
      let code := pyStrip cell.source
      match execute_cell_simple (env.session k) cell_timeout with
      | Except.error PyExc.keyboardInterrupt =>
        ⟨[(num, total)], [], [], StopReason.interrupted⟩
      | Except.error _ =>
        ⟨[(num, total)], [], [], StopReason.faulted⟩
      | Except.ok res =>
        if res.success then
          let r := runCellsLegacy env cell_timeout total (done ++ [cell]) rest p
          ⟨(num, total) :: r.events, (code, num) :: r.executed, r.promptLog, r.reason⟩
        else
          let ans := pyLower (pyStrip (env.answer p))
          if ans = "q" then
            ⟨[(num, total)], [(code, num)], [(k, env.answer p)], StopReason.userStop⟩
          else if ans ≠ "y" then
            ⟨[(num, total)], [(code, num)], [(k, env.answer p)], StopReason.userStop⟩
          else
            let r := runCellsLegacy env cell_timeout total (done ++ [cell]) rest (p + 1)
            ⟨(num, total) :: r.events, (code, num) :: r.executed,
              (k, env.answer p) :: r.promptLog, r.reason⟩

/-- `run_notebook_realtime_extended(notebook_path, cell_timeout, output_file)`
of the legacy run_notebook.py (lines 10-104): same structure as the toolkit
variant but with no cell range and the prefix-count progress numbering. -/
def run_notebook_realtime_extended_legacy (cells : List Cell)
    (cell_timeout : Option Int) (file_output : Bool) (env : RunEnv) : RunResult :=
  let redirected := if file_output then StdTarget.devnull else StdTarget.console
  if env.waitReadyOk then
    let code_cells := cells.filter isExecutableCell
    let r := runCellsLegacy env cell_timeout code_cells.length [] cells 0
    ⟨r, 1, decide (r.reason = StopReason.faulted), redirected, redirected⟩
  else
    ⟨⟨[], [], [], StopReason.completed⟩, 0, true, redirected, redirected⟩

/-- The loop trace of one toolkit run (projection helper for statements). -/
def runLoopOf (cells : List Cell) (cell_timeout : Option Int) (file_output : Bool)
    (cell_range : Option (Nat × Nat)) (env : RunEnv) : LoopResult :=
  (run_notebook_realtime_extended cells cell_timeout file_output cell_range env).loop

/-! ## Concrete fixtures used by counterexamples and witnesses -/

/-- A kernel that executes the cell instantly and successfully. -/
def okSession : SessionModel := ⟨false, 0, none, "ok"⟩

/-- A kernel behaviour whose cell reports an error status. -/
def errSession : SessionModel := ⟨false, 0, none, "error"⟩

/-- A run environment that is ready, always succeeds and always answers "y". -/
def envAllOk : RunEnv := ⟨true, fun _ => okSession, fun _ => "y"⟩

/-- A run environment whose kernel never becomes ready. -/
def envNotReady : RunEnv := ⟨false, fun _ => okSession, fun _ => "y"⟩

/-- A nonempty code cell. -/
def codeCell (src : String) : Cell := ⟨"code", src⟩

/-- Three nonempty code cells, the scenario document of the spec. -/
def threeCells : List Cell := [codeCell "a = 1", codeCell "b = 2", codeCell "c = 3"]

example :
    (run_notebook_realtime_extended threeCells none false (some (2, 3)) envAllOk).loop.events
      = [(2, 2), (3, 2)] := rfl
example :
    (run_notebook_realtime_extended [codeCell "x"] none false none envNotReady).cleanupRuns = 0 := rfl
example :
    (run_notebook_realtime_extended [codeCell "x"] none true none envAllOk).finalStdout
      = StdTarget.devnull := rfl
example :
    (run_notebook_realtime_extended [⟨"code", "  \n "⟩, ⟨"markdown", "t"⟩] none false none envAllOk).loop
      = ⟨[], [], [], StopReason.completed⟩ := rfl
example :
    (run_notebook_realtime_extended [codeCell "x", codeCell "y"] none false none
        ⟨true, fun _ => errSession, fun _ => " N "⟩).loop.promptLog = [(0, " N ")] := rfl
example :
    (run_notebook_realtime_extended [codeCell "x", codeCell "y"] none false none
        ⟨true, fun _ => errSession, fun _ => "Y"⟩).loop.events = [(1, 2), (2, 2)] := rfl
example :
    run_notebook_realtime_extended_legacy [⟨"markdown", "m"⟩, codeCell "x", ⟨"code", " "⟩, codeCell "y"]
        none false envAllOk
      = run_notebook_realtime_extended [⟨"markdown", "m"⟩, codeCell "x", ⟨"code", " "⟩, codeCell "y"]
        none false none envAllOk := rfl
example : execute_cell_simple ⟨true, 0, none, "ok"⟩ (some 10) = Except.error PyExc.keyboardInterrupt := rfl
example : execute_cell_simple ⟨false, 50, none, "ok"⟩ (some 10)
    = Except.ok ⟨false, some FailKind.timedOut⟩ := rfl
example : execute_cell_simple ⟨false, 50, none, "ok"⟩ (some 0) = Except.ok ⟨true, none⟩ := rfl
example : execute_cell_simple ⟨false, 50, none, "ok"⟩ none = Except.ok ⟨true, none⟩ := rfl

/-! ## Helper lemmas -/

/-- `execute_interactive` returns `KeyboardInterrupt` only when the model says
a cancellation signal arrived. -/
theorem execute_interactive_no_interrupt (sess : SessionModel) (d : Option Int)
    (h : sess.interrupted = false) :
    execute_interactive sess d ≠ Except.error PyExc.keyboardInterrupt := by
  unfold execute_interactive
  rw [h]
  simp only [Bool.false_eq_true, if_false]
  cases d with
  | none => cases sess.transportFault <;> simp
  | some t =>
    by_cases hd : (sess.duration : Int) > t
    · simp [hd]
    · simp only [hd, if_false]
      cases sess.transportFault <;> simp

/-- Absent a cancellation signal, `execute_cell_simple` always returns a
boolean result — the `except Exception` clause absorbs every session fault. -/
theorem execute_cell_simple_total (sess : SessionModel) (t : Option Int)
    (h : sess.interrupted = false) :
    ∃ r, execute_cell_simple sess t = Except.ok r := by
  unfold execute_cell_simple
  rcases hx : execute_interactive sess (effective_timeout t) with e | v
  · cases e with
    | keyboardInterrupt => exact absurd hx (execute_interactive_no_interrupt sess _ h)
    | timeoutError msg => simp only [hx]; split <;> exact ⟨_, rfl⟩
    | transportError msg => simp only [hx]; split <;> exact ⟨_, rfl⟩
  · simp only [hx]; split <;> exact ⟨_, rfl⟩

/-! ### One-step unfolding lemmas for the two loops -/

/-- Loop step: a cancellation signal during the execution. -/
theorem runCells_step_interrupted (env : RunEnv) (t : Option Int)
    (range : Option (Nat × Nat)) (total : Nat) (cell : Cell) (rest : List Cell)
    (i p : Nat)
    (hx : execute_cell_simple (env.session i) t = Except.error PyExc.keyboardInterrupt) :
    runCells env t range total (cell :: rest) i p
      = ⟨[(cellNum range i, total)], [], [], StopReason.interrupted⟩ := by
  simp [runCells, hx]

/-- Loop step: an uncaught non-cancellation exception (never produced by
`execute_cell_simple`, but the match must cover it). -/
theorem runCells_step_faulted (env : RunEnv) (t : Option Int)
    (range : Option (Nat × Nat)) (total : Nat) (cell : Cell) (rest : List Cell)
    (i p : Nat) (e : PyExc) (hx : execute_cell_simple (env.session i) t = Except.error e)
    (he : e ≠ PyExc.keyboardInterrupt) :
    runCells env t range total (cell :: rest) i p
      = ⟨[(cellNum range i, total)], [], [], StopReason.faulted⟩ := by
  cases e with
  | keyboardInterrupt => exact absurd rfl he
  | timeoutError msg => simp [runCells, hx]
  | transportError msg => simp [runCells, hx]

/-- Loop step: a successful unit — no prompt, the loop resumes. -/
theorem runCells_step_success (env : RunEnv) (t : Option Int)
    (range : Option (Nat × Nat)) (total : Nat) (cell : Cell) (rest : List Cell)
    (i p : Nat) (res : CellResult)
    (hx : execute_cell_simple (env.session i) t = Except.ok res)
    (hs : res.success = true) :
    runCells env t range total (cell :: rest) i p
      = ⟨(cellNum range i, total) :: (runCells env t range total rest (i + 1) p).events,
         (pyStrip cell.source, cellNum range i)
           :: (runCells env t range total rest (i + 1) p).executed,
         (runCells env t range total rest (i + 1) p).promptLog,
         (runCells env t range total rest (i + 1) p).reason⟩ := by
  simp [runCells, hx, hs]

/-- Loop step: a failed unit whose prompt answer, stripped and lowered, is not
`"y"` (this covers `"q"` as well) — the loop halts. -/
theorem runCells_step_fail_halt (env : RunEnv) (t : Option Int)
    (range : Option (Nat × Nat)) (total : Nat) (cell : Cell) (rest : List Cell)
    (i p : Nat) (res : CellResult)
    (hx : execute_cell_simple (env.session i) t = Except.ok res)
    (hs : res.success = false) (hy : pyLower (pyStrip (env.answer p)) ≠ "y") :
    runCells env t range total (cell :: rest) i p
      = ⟨[(cellNum range i, total)], [(pyStrip cell.source, cellNum range i)],
         [(i, env.answer p)], StopReason.userStop⟩ := by
  by_cases hq : pyLower (pyStrip (env.answer p)) = "q" <;>
    simp [runCells, hx, hs, hq, hy]

/-- Loop step: a failed unit whose prompt answer is `"y"` — the loop resumes
with the next prompt index. -/
theorem runCells_step_fail_continue (env : RunEnv) (t : Option Int)
    (range : Option (Nat × Nat)) (total : Nat) (cell : Cell) (rest : List Cell)
    (i p : Nat) (res : CellResult)
    (hx : execute_cell_simple (env.session i) t = Except.ok res)
    (hs : res.success = false) (hy : pyLower (pyStrip (env.answer p)) = "y") :
    runCells env t range total (cell :: rest) i p
      = ⟨(cellNum range i, total)
           :: (runCells env t range total rest (i + 1) (p + 1)).events,
         (pyStrip cell.source, cellNum range i)
           :: (runCells env t range total rest (i + 1) (p + 1)).executed,
         (i, env.answer p)
           :: (runCells env t range total rest (i + 1) (p + 1)).promptLog,
         (runCells env t range total rest (i + 1) (p + 1)).reason⟩ := by
  simp [runCells, hx, hs, hy]

/-- The progress events the loop emits are exactly `(cellNum range k, total)`
for the consecutive loop indices `k` the loop reached, whatever the kernel and
the operator do. -/
theorem runCells_events (env : RunEnv) (t : Option Int) (range : Option (Nat × Nat))
    (total : Nat) :
    ∀ (sel : List Cell) (i p : Nat),
      (runCells env t range total sel i p).events
        = (List.range' i (runCells env t range total sel i p).events.length).map
            (fun k => (cellNum range k, total)) := by
  intro sel
  induction sel with
  | nil => intro i p; rfl
  | cons cell rest ih =>
    intro i p
    rcases hx : execute_cell_simple (env.session i) t with e | res
    · by_cases he : e = PyExc.keyboardInterrupt
      · subst he
        rw [runCells_step_interrupted env t range total cell rest i p hx]
        simp [List.range'_one]
      · rw [runCells_step_faulted env t range total cell rest i p e hx he]
        simp [List.range'_one]
    · cases hs : res.success with
      | true =>
        rw [runCells_step_success env t range total cell rest i p res hx hs]
        simp only [List.length_cons, List.range'_succ, List.map_cons]
        exact congrArg (List.cons (cellNum range i, total)) (ih (i + 1) p)
      | false =>
        by_cases hy : pyLower (pyStrip (env.answer p)) = "y"
        · rw [runCells_step_fail_continue env t range total cell rest i p res hx hs hy]
          simp only [List.length_cons, List.range'_succ, List.map_cons]
          exact congrArg (List.cons (cellNum range i, total)) (ih (i + 1) (p + 1))
        · rw [runCells_step_fail_halt env t range total cell rest i p res hx hs hy]
          simp [List.range'_one]

/-! ## The claims -/

/-- C1 (counterexample): a run whose session never becomes ready exits with
ZERO cleanup executions — `wait_for_ready` is called before the `try`, so the
`finally` cleanup is skipped on that path, even though the run raises. -/
theorem c1_counterexample_not_ready_skips_cleanup :
    (run_notebook_realtime_extended [codeCell "x"] none false none envNotReady).cleanupRuns = 0 ∧
      (run_notebook_realtime_extended [codeCell "x"] none false none envNotReady).raised = true :=
  ⟨rfl, rfl⟩

/-- C1 (amended): Cleanup executes exactly once on every exit path entered
after the session becomes ready (success, stop, quit, cancellation, fault in
the loop), but on the path where the session fails to become ready within its
startup deadline the error propagates from before the cleanup-protected
region and Cleanup runs zero times. -/
theorem c1_amended_cleanup_once_only_after_ready :
    ∀ (cells : List Cell) (t : Option Int) (fo : Bool) (range : Option (Nat × Nat))
      (session : Nat → SessionModel) (answer : Nat → String),
      (run_notebook_realtime_extended cells t fo range ⟨true, session, answer⟩).cleanupRuns = 1 ∧
      (run_notebook_realtime_extended cells t fo range ⟨false, session, answer⟩).cleanupRuns = 0 ∧
      (run_notebook_realtime_extended cells t fo range ⟨false, session, answer⟩).raised = true :=
  fun _ _ _ _ _ _ => ⟨rfl, rfl, rfl⟩

/-- C2 (counterexample): a file-mode run that completes normally leaves
`sys.stdout` pointing at the discard target — it is not restored to its
pre-run value (the console). -/
theorem c2_counterexample_stdout_not_restored :
    (run_notebook_realtime_extended [codeCell "x"] none true none envAllOk).finalStdout
        = StdTarget.devnull ∧
      StdTarget.devnull ≠ StdTarget.console :=
  ⟨rfl, by decide⟩

/-- C2 (amended): in file mode the ambient standard output and standard error
are redirected to the discard target at run start and are never restored on
any exit path — after the run, within the same process, both still point at
the discard target; the registered exit hook only closes files. -/
theorem c2_amended_redirection_never_restored :
    ∀ (cells : List Cell) (t : Option Int) (range : Option (Nat × Nat)) (env : RunEnv),
      (run_notebook_realtime_extended cells t true range env).finalStdout = StdTarget.devnull ∧
      (run_notebook_realtime_extended cells t true range env).finalStderr = StdTarget.devnull := by
  intro cells t range env
  unfold run_notebook_realtime_extended
  by_cases hw : env.waitReadyOk = true <;> simp [hw]

/-- C3 (code bug): the Range Selector accepts the malformed spec `"1-2-3"`,
which is neither of the documented forms `"N"`/`"N-M"`, and silently returns
`(1, 2)` instead of failing — `split('-')` produces three parts and the code
reads only the first two, contradicting its own error message
"Use N or N-M". -/
theorem c3_parse_cell_range_accepts_malformed_spec :
    parse_cell_range "1-2-3" 5 = Except.ok (some (1, 2)) ∧
      ∀ msg, parse_cell_range "1-2-3" 5 ≠ Except.error msg :=
  ⟨rfl, fun _ h => Except.noConfusion h⟩

/-- C4 (counterexample): for a document with 3 executable units and range
"2-3", the progress events are `2/2` then `3/2` — the position reported is the
absolute unit number (`cell_range[0] + i`), not the position within the
selected subset, so the claimed `1/2`, `2/2` is wrong. -/
theorem c4_counterexample_progress_absolute_not_relative :
    (run_notebook_realtime_extended threeCells none false (some (2, 3)) envAllOk).loop.events
        = [(2, 2), (3, 2)] ∧
      ([(2, 2), (3, 2)] : List (Nat × Nat)) ≠ [(1, 2), (2, 2)] :=
  ⟨rfl, by decide⟩

/-- C4 (amended): the progress event before each unit reports the pair
`(cellNum range k, subset size)`: the subset's size as the denominator, but as
the position the unit's absolute 1-based index in the executable list
(`range start + offset`) when a range is given, `k+1` otherwise. -/
theorem c4_amended_progress_reports_absolute_position_over_subset_size :
    ∀ (cells : List Cell) (t : Option Int) (fo : Bool) (range : Option (Nat × Nat))
      (env : RunEnv),
      (run_notebook_realtime_extended cells t fo range env).loop.events
        = (List.range (run_notebook_realtime_extended cells t fo range env).loop.events.length).map
            (fun k => (cellNum range k, (selectedCells cells range).length)) := by
  intro cells t fo range env
  unfold run_notebook_realtime_extended
  by_cases hw : env.waitReadyOk = true
  · simp only [hw, if_true]
    rw [List.range_eq_range']
    exact runCells_events env t range (selectedCells cells range).length
      (selectedCells cells range) 0 0
  · simp [hw]

/-- C6 (code bug): the traceback filter keeps every character with code point
below 127 — and ANSI escape sequences consist solely of such characters
(ESC is 27), so they are NOT stripped; what the filter actually removes is
non-ASCII text.  The rendered failure block is still a header plus one entry
per traceback line. -/
theorem c6_clean_line_keeps_ansi_escapes :
    render_error_lines "ZeroDivisionError" "division by zero"
        ["\x1b[31mZeroDivisionError\x1b[0m: division by zero"]
      = ["\n❌ ZeroDivisionError: division by zero",
         "\x1b[31mZeroDivisionError\x1b[0m: division by zero"] ∧
      clean_line "caffè" = "caff" :=
  ⟨rfl, rfl⟩

/-- C7: when the request specifies an unbounded per-unit timeout (0 or None),
the deadline handed to the session is `None`, and — as long as the session's
faults are not themselves messages containing "timeout" — no unit ever yields
a timeout report, regardless of how long it runs. -/
theorem c7_unbounded_timeout_never_times_out (sess : SessionModel) (t : Option Int)
    (hu : t = some 0 ∨ t = none)
    (hf : ∀ m, sess.transportFault = some m → pyContains (pyLower m) "timeout" = false) :
    effective_timeout t = none ∧
      ∀ r, execute_cell_simple sess t = Except.ok r → r.report ≠ some FailKind.timedOut := by
  have ht : effective_timeout t = none := by
    rcases hu with h | h <;> simp [effective_timeout, h]
  refine ⟨ht, ?_⟩
  intro r hr
  unfold execute_cell_simple at hr
  rw [ht] at hr
  unfold execute_interactive at hr
  by_cases hi : sess.interrupted = true
  · simp [hi] at hr
  · cases hft : sess.transportFault with
    | none =>
      simp only [hi, Bool.false_eq_true, if_false, hft] at hr
      split at hr <;> (cases hr; simp)
    | some msg =>
      simp only [hi, Bool.false_eq_true, if_false, hft] at hr
      simp only [excStr, hf msg hft, Bool.false_eq_true, if_false] at hr
      cases hr
      simp

/-- C7 witness: a unit that would run for a million seconds, submitted with
timeout 0, is not reported as a timeout. -/
theorem c7_witness_long_unit_no_timeout :
    effective_timeout (some 0) = none ∧
      ∀ r, execute_cell_simple ⟨false, 1000000, none, "ok"⟩ (some 0) = Except.ok r →
        r.report ≠ some FailKind.timedOut :=
  c7_unbounded_timeout_never_times_out ⟨false, 1000000, none, "ok"⟩ (some 0)
    (Or.inl rfl) (fun _ h => Option.noConfusion h)

/-- C10 (counterexample): `execute_cell_simple` DOES raise for some input — a
`KeyboardInterrupt` arriving during the submission is not an `Exception`, is
not caught by `except Exception`, and propagates to the orchestrator. -/
theorem c10_counterexample_keyboard_interrupt_escapes :
    execute_cell_simple ⟨true, 0, none, "ok"⟩ (some 10)
      = Except.error PyExc.keyboardInterrupt :=
  rfl

/-- C10 (amended): every `Exception` raised by the submission is caught and
mapped to a `False` result — reported as a timeout exactly when the
exception's lowered string contains "timeout", as an execution error
otherwise; only the cancellation signal `KeyboardInterrupt`, which is not an
`Exception`, propagates (to be handled by the orchestrator). -/
theorem c10_amended_exceptions_caught_and_classified (sess : SessionModel)
    (t : Option Int) (h : sess.interrupted = false) :
    (∃ r, execute_cell_simple sess t = Except.ok r) ∧
      ∀ e, execute_interactive sess (effective_timeout t) = Except.error e →
        execute_cell_simple sess t
          = Except.ok ⟨false,
              some (if pyContains (pyLower (excStr e)) "timeout" then
                FailKind.timedOut else FailKind.execError)⟩ := by
  refine ⟨execute_cell_simple_total sess t h, ?_⟩
  intro e he
  unfold execute_cell_simple
  rw [he]
  cases e with
  | keyboardInterrupt => exact absurd he (execute_interactive_no_interrupt sess _ h)
  | timeoutError msg =>
    by_cases hc : pyContains (pyLower (excStr (PyExc.timeoutError msg))) "timeout" = true <;>
      simp [hc]
  | transportError msg =>
    by_cases hc : pyContains (pyLower (excStr (PyExc.transportError msg))) "timeout" = true <;>
      simp [hc]

/-- C10 witness: a kernel whose submission raises a `TimeoutError` after 5 s
against a 3 s deadline: the function returns `False` with a timeout report
instead of raising. -/
theorem c10_witness_timeout_exception_mapped :
    (∃ r, execute_cell_simple ⟨false, 5, none, "ok"⟩ (some 3) = Except.ok r) ∧
      ∀ e, execute_interactive ⟨false, 5, none, "ok"⟩ (effective_timeout (some 3))
          = Except.error e →
        execute_cell_simple ⟨false, 5, none, "ok"⟩ (some 3)
          = Except.ok ⟨false,
              some (if pyContains (pyLower (excStr e)) "timeout" then
                FailKind.timedOut else FailKind.execError)⟩ :=
  c10_amended_exceptions_caught_and_classified ⟨false, 5, none, "ok"⟩ (some 3) rfl

/-- C8: in a document whose every code unit is blank after trimming, nothing
is selected, the loop records no event, no execution, no prompt, completes
normally, and cleanup runs once; in general only cells whose type is `code`
and whose trimmed source is non-empty are ever selected. -/
theorem c8_blank_code_cells_execute_nothing (cells : List Cell) (t : Option Int)
    (fo : Bool) (session : Nat → SessionModel) (answer : Nat → String)
    (h : ∀ cell ∈ cells, cell.cell_type = "code" → pyStrip cell.source = "") :
    selectedCells cells none = [] ∧
      (run_notebook_realtime_extended cells t fo none ⟨true, session, answer⟩).loop
        = ⟨[], [], [], StopReason.completed⟩ ∧
      (run_notebook_realtime_extended cells t fo none ⟨true, session, answer⟩).cleanupRuns = 1 ∧
      (run_notebook_realtime_extended cells t fo none ⟨true, session, answer⟩).raised = false ∧
      ∀ (cells2 : List Cell) (range2 : Option (Nat × Nat)) (cell2 : Cell),
        cell2 ∈ selectedCells cells2 range2 → isExecutableCell cell2 = true := by
  have hsel : selectedCells cells none = [] := by
    unfold selectedCells
    rw [List.filter_eq_nil_iff]
    intro a ha
    by_cases hc : a.cell_type = "code"
    · simp [isExecutableCell, hc, h a ha hc]
    · simp [isExecutableCell, hc]
  refine ⟨hsel, ?_, rfl, ?_, ?_⟩
  · simp [run_notebook_realtime_extended, hsel, runCells]
  · simp [run_notebook_realtime_extended, hsel, runCells]
  · intro cells2 range2 cell2 hmem
    unfold selectedCells at hmem
    cases range2 with
    | none => exact (List.mem_filter.mp hmem).2
    | some r =>
      exact (List.mem_filter.mp
        (List.drop_subset _ _ (List.take_subset _ _ hmem))).2

/-- C8 witness: a document with one code cell that is blank after trimming. -/
theorem c8_witness_single_blank_cell :
    selectedCells [⟨"code", "   "⟩] none = [] ∧
      (run_notebook_realtime_extended [⟨"code", "   "⟩] none false none
          ⟨true, fun _ => okSession, fun _ => "y"⟩).loop
        = ⟨[], [], [], StopReason.completed⟩ ∧
      (run_notebook_realtime_extended [⟨"code", "   "⟩] none false none
          ⟨true, fun _ => okSession, fun _ => "y"⟩).cleanupRuns = 1 ∧
      (run_notebook_realtime_extended [⟨"code", "   "⟩] none false none
          ⟨true, fun _ => okSession, fun _ => "y"⟩).raised = false ∧
      ∀ (cells2 : List Cell) (range2 : Option (Nat × Nat)) (cell2 : Cell),
        cell2 ∈ selectedCells cells2 range2 → isExecutableCell cell2 = true :=
  c8_blank_code_cells_execute_nothing [⟨"code", "   "⟩] none false
    (fun _ => okSession) (fun _ => "y") (by decide)

/-! ### Step lemmas for the legacy loop, and the variant equivalence -/

/-- Legacy loop step: a non-code cell is skipped. -/
theorem runCellsLegacy_skip_noncode (env : RunEnv) (t : Option Int) (total : Nat)
    (done : List Cell) (cell : Cell) (rest : List Cell) (p : Nat)
    (hc : cell.cell_type ≠ "code") :
    runCellsLegacy env t total done (cell :: rest) p
      = runCellsLegacy env t total (done ++ [cell]) rest p := by
  simp [runCellsLegacy, hc]

/-- Legacy loop step: a code cell blank after trimming is skipped. -/
theorem runCellsLegacy_skip_blank (env : RunEnv) (t : Option Int) (total : Nat)
    (done : List Cell) (cell : Cell) (rest : List Cell) (p : Nat)
    (hc : cell.cell_type = "code") (hb : pyStrip cell.source = "") :
    runCellsLegacy env t total done (cell :: rest) p
      = runCellsLegacy env t total (done ++ [cell]) rest p := by
  simp [runCellsLegacy, hc, hb]

/-- Legacy loop step: cancellation during an executable cell. -/
theorem runCellsLegacy_step_interrupted (env : RunEnv) (t : Option Int) (total : Nat)
    (done : List Cell) (cell : Cell) (rest : List Cell) (p : Nat)
    (hc : cell.cell_type = "code") (hb : pyStrip cell.source ≠ "")
    (hx : execute_cell_simple (env.session ((done.filter isExecutableCell).length)) t
      = Except.error PyExc.keyboardInterrupt) :
    runCellsLegacy env t total done (cell :: rest) p
      = ⟨[(((done ++ [cell]).filter isExecutableCell).length, total)], [], [],
         StopReason.interrupted⟩ := by
  simp [runCellsLegacy, hc, hb, hx]

/-- Legacy loop step: an uncaught non-cancellation exception. -/
theorem runCellsLegacy_step_faulted (env : RunEnv) (t : Option Int) (total : Nat)
    (done : List Cell) (cell : Cell) (rest : List Cell) (p : Nat) (e : PyExc)
    (hc : cell.cell_type = "code") (hb : pyStrip cell.source ≠ "")
    (hx : execute_cell_simple (env.session ((done.filter isExecutableCell).length)) t
      = Except.error e) (he : e ≠ PyExc.keyboardInterrupt) :
    runCellsLegacy env t total done (cell :: rest) p
      = ⟨[(((done ++ [cell]).filter isExecutableCell).length, total)], [], [],
         StopReason.faulted⟩ := by
  cases e with
  | keyboardInterrupt => exact absurd rfl he
  | timeoutError msg => simp [runCellsLegacy, hc, hb, hx]
  | transportError msg => simp [runCellsLegacy, hc, hb, hx]

/-- Legacy loop step: a successful executable cell. -/
theorem runCellsLegacy_step_success (env : RunEnv) (t : Option Int) (total : Nat)
    (done : List Cell) (cell : Cell) (rest : List Cell) (p : Nat) (res : CellResult)
    (hc : cell.cell_type = "code") (hb : pyStrip cell.source ≠ "")
    (hx : execute_cell_simple (env.session ((done.filter isExecutableCell).length)) t
      = Except.ok res) (hs : res.success = true) :
    runCellsLegacy env t total done (cell :: rest) p
      = ⟨(((done ++ [cell]).filter isExecutableCell).length, total)
           :: (runCellsLegacy env t total (done ++ [cell]) rest p).events,
         (pyStrip cell.source, ((done ++ [cell]).filter isExecutableCell).length)
           :: (runCellsLegacy env t total (done ++ [cell]) rest p).executed,
         (runCellsLegacy env t total (done ++ [cell]) rest p).promptLog,
         (runCellsLegacy env t total (done ++ [cell]) rest p).reason⟩ := by
  simp [runCellsLegacy, hc, hb, hx, hs]

/-- Legacy loop step: a failed executable cell with a non-"y" answer. -/
theorem runCellsLegacy_step_fail_halt (env : RunEnv) (t : Option Int) (total : Nat)
    (done : List Cell) (cell : Cell) (rest : List Cell) (p : Nat) (res : CellResult)
    (hc : cell.cell_type = "code") (hb : pyStrip cell.source ≠ "")
    (hx : execute_cell_simple (env.session ((done.filter isExecutableCell).length)) t
      = Except.ok res) (hs : res.success = false)
    (hy : pyLower (pyStrip (env.answer p)) ≠ "y") :
    runCellsLegacy env t total done (cell :: rest) p
      = ⟨[(((done ++ [cell]).filter isExecutableCell).length, total)],
         [(pyStrip cell.source, ((done ++ [cell]).filter isExecutableCell).length)],
         [((done.filter isExecutableCell).length, env.answer p)],
         StopReason.userStop⟩ := by
  by_cases hq : pyLower (pyStrip (env.answer p)) = "q" <;>
    simp [runCellsLegacy, hc, hb, hx, hs, hq, hy]

/-- Legacy loop step: a failed executable cell with a "y" answer. -/
theorem runCellsLegacy_step_fail_continue (env : RunEnv) (t : Option Int) (total : Nat)
    (done : List Cell) (cell : Cell) (rest : List Cell) (p : Nat) (res : CellResult)
    (hc : cell.cell_type = "code") (hb : pyStrip cell.source ≠ "")
    (hx : execute_cell_simple (env.session ((done.filter isExecutableCell).length)) t
      = Except.ok res) (hs : res.success = false)
    (hy : pyLower (pyStrip (env.answer p)) = "y") :
    runCellsLegacy env t total done (cell :: rest) p
      = ⟨(((done ++ [cell]).filter isExecutableCell).length, total)
           :: (runCellsLegacy env t total (done ++ [cell]) rest (p + 1)).events,
         (pyStrip cell.source, ((done ++ [cell]).filter isExecutableCell).length)
           :: (runCellsLegacy env t total (done ++ [cell]) rest (p + 1)).executed,
         ((done.filter isExecutableCell).length, env.answer p)
           :: (runCellsLegacy env t total (done ++ [cell]) rest (p + 1)).promptLog,
         (runCellsLegacy env t total (done ++ [cell]) rest (p + 1)).reason⟩ := by
  simp [runCellsLegacy, hc, hb, hx, hs, hy]

/-- The legacy loop over all cells equals the toolkit loop over the filtered
cells: the prefix count of executable cells is exactly the 1-based index into
the filtered list. -/
theorem runCellsLegacy_eq_runCells (env : RunEnv) (t : Option Int) :
    ∀ (rest done : List Cell) (p total : Nat),
      runCellsLegacy env t total done rest p
        = runCells env t none total (rest.filter isExecutableCell)
            ((done.filter isExecutableCell).length) p := by
  intro rest
  induction rest with
  | nil => intro done p total; rfl
  | cons cell rst ih =>
    intro done p total
    by_cases hc : cell.cell_type = "code"
    · by_cases hb : pyStrip cell.source = ""
      · have hskip : isExecutableCell cell = false := by
          simp [isExecutableCell, hc, hb]
        rw [runCellsLegacy_skip_blank env t total done cell rst p hc hb,
          ih (done ++ [cell]) p total]
        have h1 : (cell :: rst).filter isExecutableCell = rst.filter isExecutableCell := by
          simp [List.filter_cons, hskip]
        have h2 : ((done ++ [cell]).filter isExecutableCell).length
            = (done.filter isExecutableCell).length := by
          simp [List.filter_append, List.filter_cons, hskip]
        rw [h1, h2]
      · have hex : isExecutableCell cell = true := by
          simp [isExecutableCell, hc, hb]
        have hf : (cell :: rst).filter isExecutableCell
            = cell :: rst.filter isExecutableCell := by
          simp [List.filter_cons, hex]
        have hnum : ((done ++ [cell]).filter isExecutableCell).length
            = (done.filter isExecutableCell).length + 1 := by
          simp [List.filter_append, List.filter_cons, hex]
        rw [hf]
        rcases hx : execute_cell_simple
            (env.session ((done.filter isExecutableCell).length)) t with e | res
        · by_cases he : e = PyExc.keyboardInterrupt
          · subst he
            rw [runCellsLegacy_step_interrupted env t total done cell rst p hc hb hx,
              runCells_step_interrupted env t none total cell
                (rst.filter isExecutableCell) ((done.filter isExecutableCell).length) p hx]
            simp [cellNum, hnum, List.filter_cons, hex]
          · rw [runCellsLegacy_step_faulted env t total done cell rst p e hc hb hx he,
              runCells_step_faulted env t none total cell
                (rst.filter isExecutableCell) ((done.filter isExecutableCell).length) p
                e hx he]
            simp [cellNum, hnum, List.filter_cons, hex]
        · cases hs : res.success with
          | true =>
            rw [runCellsLegacy_step_success env t total done cell rst p res hc hb hx hs,
              runCells_step_success env t none total cell
                (rst.filter isExecutableCell) ((done.filter isExecutableCell).length) p
                res hx hs, ih (done ++ [cell]) p total, hnum]
            simp [cellNum]
          | false =>
            by_cases hy : pyLower (pyStrip (env.answer p)) = "y"
            · rw [runCellsLegacy_step_fail_continue env t total done cell rst p res
                  hc hb hx hs hy,
                runCells_step_fail_continue env t none total cell
                  (rst.filter isExecutableCell) ((done.filter isExecutableCell).length) p
                  res hx hs hy, ih (done ++ [cell]) (p + 1) total, hnum]
              simp [cellNum]
            · rw [runCellsLegacy_step_fail_halt env t total done cell rst p res
                  hc hb hx hs hy,
                runCells_step_fail_halt env t none total cell
                  (rst.filter isExecutableCell) ((done.filter isExecutableCell).length) p
                  res hx hs hy]
              simp [cellNum, hnum, List.filter_cons, hex]
    · have hskip : isExecutableCell cell = false := by
        simp [isExecutableCell, hc]
      rw [runCellsLegacy_skip_noncode env t total done cell rst p hc,
        ih (done ++ [cell]) p total]
      have h1 : (cell :: rst).filter isExecutableCell = rst.filter isExecutableCell := by
        simp [List.filter_cons, hskip]
      have h2 : ((done ++ [cell]).filter isExecutableCell).length
          = (done.filter isExecutableCell).length := by
        simp [List.filter_append, List.filter_cons, hskip]
      rw [h1, h2]

/-- C9: without a cell range the two source variants are observationally
identical: same selected cells in the same order, same progress numbering
(the legacy running prefix count equals the toolkit 1-based filtered index),
same total, same prompts, same ending, same cleanup. -/
theorem c9_legacy_and_toolkit_runs_agree :
    ∀ (cells : List Cell) (t : Option Int) (fo : Bool) (env : RunEnv),
      run_notebook_realtime_extended_legacy cells t fo env
        = run_notebook_realtime_extended cells t fo none env := by
  intro cells t fo env
  unfold run_notebook_realtime_extended_legacy run_notebook_realtime_extended
  by_cases hw : env.waitReadyOk = true
  · simp only [hw, if_true]
    rw [show (runCellsLegacy env t (cells.filter isExecutableCell).length [] cells 0)
        = runCells env t none (cells.filter isExecutableCell).length
            (cells.filter isExecutableCell) 0 0 from
      runCellsLegacy_eq_runCells env t cells [] 0 (cells.filter isExecutableCell).length]
    rfl
  · simp [hw]

/-- The orchestrator loop's contract, by induction over the selected cells
with the loop index `i` and prompt index `p` generalised: events never
outnumber the selected cells; executions never outnumber events; a nonempty
selection starts at least one unit; the prompt log lists exactly the executed
indices whose execution did not succeed, in order; an answer normalising to
`"y"` resumes the loop (the next unit starts); any other answer makes the
prompting unit the last one started and ends the loop as a user stop; and an
executed unit that succeeded always resumes automatically — whenever another
unit remains, the next unit starts. -/
theorem runCells_spec (env : RunEnv) (t : Option Int) (range : Option (Nat × Nat))
    (total : Nat) :
    ∀ (sel : List Cell) (i p : Nat),
      (runCells env t range total sel i p).events.length ≤ sel.length ∧
      (runCells env t range total sel i p).executed.length
        ≤ (runCells env t range total sel i p).events.length ∧
      (sel ≠ [] → (runCells env t range total sel i p).events ≠ []) ∧
      ((runCells env t range total sel i p).promptLog.map Prod.fst
        = (List.range' i (runCells env t range total sel i p).executed.length).filter
            (fun k => !cellSucceeds (env.session k) t)) ∧
      (∀ k a, (k, a) ∈ (runCells env t range total sel i p).promptLog →
        pyLower (pyStrip a) = "y" → k + 1 < i + sel.length →
          k + 1 < i + (runCells env t range total sel i p).events.length) ∧
      (∀ k a, (k, a) ∈ (runCells env t range total sel i p).promptLog →
        pyLower (pyStrip a) ≠ "y" →
          i + (runCells env t range total sel i p).events.length = k + 1 ∧
          (runCells env t range total sel i p).reason = StopReason.userStop) ∧
      (∀ k, i ≤ k → k < i + (runCells env t range total sel i p).executed.length →
        cellSucceeds (env.session k) t = true → k + 1 < i + sel.length →
          k + 1 < i + (runCells env t range total sel i p).events.length) := by
  intro sel
  induction sel with
  | nil =>
    intro i p
    refine ⟨by simp [runCells], by simp [runCells], by simp, by simp [runCells],
      ?_, ?_, ?_⟩
    · intro k a hmem
      simp [runCells] at hmem
    · intro k a hmem
      simp [runCells] at hmem
    · intro k hik hk
      simp [runCells] at hk
      omega
  | cons cell rest ih =>
    intro i p
    rcases hx : execute_cell_simple (env.session i) t with e | res
    · have hstep : runCells env t range total (cell :: rest) i p
          = ⟨[(cellNum range i, total)], [], [],
             if e = PyExc.keyboardInterrupt then StopReason.interrupted
             else StopReason.faulted⟩ := by
        by_cases he : e = PyExc.keyboardInterrupt
        · subst he
          rw [runCells_step_interrupted env t range total cell rest i p hx]
          simp
        · rw [runCells_step_faulted env t range total cell rest i p e hx he]
          simp [he]
      rw [hstep]
      refine ⟨by simp, by simp, by simp, by simp, ?_, ?_, ?_⟩
      · intro k a hmem
        simp at hmem
      · intro k a hmem
        simp at hmem
      · intro k hik hk
        simp at hk
        omega
    · have hcs : cellSucceeds (env.session i) t = res.success := by
        unfold cellSucceeds
        rw [hx]
      cases hs : res.success with
      | true =>
        obtain ⟨ih1, ih2, ih3, ih4, ih5, ih6, ih7⟩ := ih (i + 1) p
        rw [runCells_step_success env t range total cell rest i p res hx hs]
        rw [hs] at hcs
        refine ⟨?_, ?_, ?_, ?_, ?_, ?_, ?_⟩
        · simpa using ih1
        · simpa using ih2
        · intro _
          simp
        · simp only [List.length_cons, List.range'_succ, List.filter_cons, hcs,
            Bool.not_true, Bool.false_eq_true, if_false]
          exact ih4
        · intro k a hmem hy hlt
          simp only [List.length_cons] at hlt ⊢
          have h5' := ih5 k a hmem hy (by omega)
          omega
        · intro k a hmem hy'
          obtain ⟨e1, e2⟩ := ih6 k a hmem hy'
          refine ⟨?_, e2⟩
          simp only [List.length_cons]
          omega
        · intro k hik hk hsucc hlt
          simp only [List.length_cons] at hk hlt ⊢
          rcases Nat.eq_or_lt_of_le hik with heq | hgt
          · have hrest : rest ≠ [] := by
              intro hnil
              rw [hnil] at hlt
              simp only [List.length_nil] at hlt
              omega
            have hpos : 0 < (runCells env t range total rest (i + 1) p).events.length :=
              List.length_pos.mpr (ih3 hrest)
            omega
          · have h7' := ih7 k (by omega) (by omega) hsucc (by omega)
            omega
      | false =>
        rw [hs] at hcs
        by_cases hy : pyLower (pyStrip (env.answer p)) = "y"
        · obtain ⟨ih1, ih2, ih3, ih4, ih5, ih6, ih7⟩ := ih (i + 1) (p + 1)
          rw [runCells_step_fail_continue env t range total cell rest i p res hx hs hy]
          refine ⟨?_, ?_, ?_, ?_, ?_, ?_, ?_⟩
          · simpa using ih1
          · simpa using ih2
          · intro _
            simp
          · simp only [List.map_cons, List.length_cons, List.range'_succ,
              List.filter_cons, hcs, Bool.not_false, if_true]
            exact congrArg (List.cons i) ih4
          · intro k a hmem hy' hlt
            simp only [List.length_cons] at hlt ⊢
            rcases List.mem_cons.mp hmem with heq | hmem'
            · have hk : k = i := congrArg Prod.fst heq
              have hrest : rest ≠ [] := by
                intro hnil
                rw [hnil] at hlt
                simp only [List.length_nil] at hlt
                omega
              have hne := ih3 hrest
              have hpos : 0 < (runCells env t range total rest (i + 1) (p + 1)).events.length :=
                List.length_pos.mpr hne
              omega
            · have h5' := ih5 k a hmem' hy' (by omega)
              omega
          · intro k a hmem hy'
            rcases List.mem_cons.mp hmem with heq | hmem'
            · have ha : a = env.answer p := congrArg Prod.snd heq
              exact absurd (ha ▸ hy) hy'
            · obtain ⟨e1, e2⟩ := ih6 k a hmem' hy'
              refine ⟨?_, e2⟩
              simp only [List.length_cons]
              omega
          · intro k hik hk hsucc hlt
            simp only [List.length_cons] at hk hlt ⊢
            rcases Nat.eq_or_lt_of_le hik with heq | hgt
            · rw [← heq, hcs] at hsucc
              exact Bool.noConfusion hsucc
            · have h7' := ih7 k (by omega) (by omega) hsucc (by omega)
              omega
        · rw [runCells_step_fail_halt env t range total cell rest i p res hx hs hy]
          refine ⟨by simp, by simp, by simp, ?_, ?_, ?_, ?_⟩
          · simp [List.range'_one, List.filter_cons, hcs]
          · intro k a hmem hy' _
            have ha : a = env.answer p :=
              congrArg Prod.snd (List.mem_singleton.mp hmem)
            exact absurd (ha ▸ hy') hy
          · intro k a hmem _
            have hk : k = i := congrArg Prod.fst (List.mem_singleton.mp hmem)
            subst hk
            exact ⟨by simp, rfl⟩
          · intro k hik hk hsucc hlt
            simp only [List.length_singleton] at hk
            have hk' : k = i := by omega
            rw [hk', hcs] at hsucc
            exact Bool.noConfusion hsucc

/-- C5: a `Failure`/`Timeout` outcome never escapes `execute_cell_simple` as
an exception (absent a cancellation signal it always returns a boolean); the
orchestrator's prompt log lists exactly the executed units that did not
succeed — so `Success` never prompts and every `Failure`/`Timeout` invokes
the decision provider; an answer normalising to `"y"` (Continue) resumes the
loop at the next unit; `"q"` (Quit) or any other answer (Stop) makes the
prompting unit the last one started and ends the run as a user stop; and a
`Success` outcome always resumes automatically: whenever an executed unit
succeeded and another selected unit remains, the next unit starts, with no
prompt in between. -/
theorem c5_failure_invokes_decision_protocol :
    ∀ (cells : List Cell) (t : Option Int) (fo : Bool) (range : Option (Nat × Nat))
      (session : Nat → SessionModel) (answer : Nat → String),
      (∀ i, (session i).interrupted = false →
        ∃ c, execute_cell_simple (session i) t = Except.ok c) ∧
      ((runLoopOf cells t fo range ⟨true, session, answer⟩).promptLog.map Prod.fst
        = (List.range (runLoopOf cells t fo range ⟨true, session, answer⟩).executed.length).filter
            (fun k => !cellSucceeds (session k) t)) ∧
      (∀ k a, (k, a) ∈ (runLoopOf cells t fo range ⟨true, session, answer⟩).promptLog →
        pyLower (pyStrip a) = "y" → k + 1 < (selectedCells cells range).length →
          k + 1 < (runLoopOf cells t fo range ⟨true, session, answer⟩).events.length) ∧
      (∀ k a, (k, a) ∈ (runLoopOf cells t fo range ⟨true, session, answer⟩).promptLog →
        pyLower (pyStrip a) ≠ "y" →
          (runLoopOf cells t fo range ⟨true, session, answer⟩).events.length = k + 1 ∧
          (runLoopOf cells t fo range ⟨true, session, answer⟩).reason
            = StopReason.userStop) ∧
      (∀ k, k < (runLoopOf cells t fo range ⟨true, session, answer⟩).executed.length →
        cellSucceeds (session k) t = true →
        k + 1 < (selectedCells cells range).length →
          k + 1 < (runLoopOf cells t fo range ⟨true, session, answer⟩).events.length) := by
  intro cells t fo range session answer
  have hL : runLoopOf cells t fo range ⟨true, session, answer⟩
      = runCells ⟨true, session, answer⟩ t range (selectedCells cells range).length
          (selectedCells cells range) 0 0 := rfl
  obtain ⟨h1, h2, h3, h4, h5, h6, h7⟩ :=
    runCells_spec ⟨true, session, answer⟩ t range (selectedCells cells range).length
      (selectedCells cells range) 0 0
  refine ⟨fun i hi => execute_cell_simple_total (session i) t hi, ?_, ?_, ?_, ?_⟩
  · rw [hL, List.range_eq_range']
    exact h4
  · intro k a hmem hy hlt
    rw [hL] at hmem ⊢
    have h5' := h5 k a hmem hy (by omega)
    omega
  · intro k a hmem hy
    rw [hL] at hmem ⊢
    obtain ⟨e1, e2⟩ := h6 k a hmem hy
    exact ⟨by omega, e2⟩
  · intro k hk hsucc hlt
    rw [hL] at hk ⊢
    have h7' := h7 k (Nat.zero_le k) (by omega) hsucc (by omega)
    omega

example : pyInt "12" = some 12 := by decide
example : pyInt " -3 " = some (-3) := by decide
example : pyInt "a" = none := by decide
example : parse_cell_range "2-5" 9 = Except.ok (some (2, 5)) := rfl
example : parse_cell_range "3" 9 = Except.ok (some (3, 3)) := rfl
example : parse_cell_range "" 9 = Except.ok none := rfl
example : parse_cell_range "0" 9 = Except.error "Cell range out of bounds" := rfl
example : parse_cell_range "1-2-3" 5 = Except.ok (some (1, 2)) := rfl
example : clean_line "\x1b[31mError\x1b[0m" = "\x1b[31mError\x1b[0m" := by decide
example : pyContains "socket TIMEOUT hit" "timeout" = false := by decide
example : pyContains (pyLower "socket TIMEOUT hit") "timeout" = true := by decide
